import Mathlib

/-!
Verification of the `logger` Go package (configuration builder and
structured-logging facade) against its specification.

The embedding is shallow: every Go function relevant to the claims is
translated into a computable Lean function over explicit data.  Machine
strings are Lean `String`s; Go's `interface{}` values that may hold either
a string or an error value are modelled by the inductive `GoValue`;
the process-wide logger state is threaded explicitly through `ProcState`;
file opening and network dialing are abstracted by an environment `Env`
of success oracles, and a `log.Fatal` process abort is modelled by an
`Option` result (`none` = process terminated).  Go's
`strings.ToUpper` / `strings.ToLower` apply the Unicode simple case
mappings rune-wise; they are modelled exactly on every code point whose
mapping lands in ASCII (the ASCII letters, plus ı → I and ſ → S for
uppercase, İ → i and the Kelvin sign → k for lowercase) and as the
identity elsewhere, which preserves every comparison against the
pure-ASCII level names the program performs.
-/

/-- The seven zerolog severity levels used by the package. -/
inductive Level : Type where
  | trace
  | debug
  | info
  | warn
  | error
  | fatal
  | panic
deriving DecidableEq, Repr

/-- A Go `interface{}` value as it occurs in the variadic field lists of
the logging facade: either a plain string, or an error value wrapped by
`errors.WithStack` (carrying the error message and a captured stack). -/
inductive GoValue : Type where
  | str (s : String)
  | errWithStack (msg : String)
deriving DecidableEq, Repr

/-- Whether a `GoValue` is a string, i.e. whether the Go type assertion
`v.(string)` succeeds. -/
def GoValue.isStr : GoValue → Bool
  | GoValue.str _ => true
  | GoValue.errWithStack _ => false

/-- One log record as handed to the sink layer: severity, message and the
ordered structured fields attached to the event. -/
structure Record : Type where
  level : Level
  message : String
  fields : List (String × GoValue)
deriving DecidableEq, Repr

/-- The `Config` struct of `config.go`. -/
structure Config : Type where
  ServiceName : String
  Pod : String
  LogLevel : String
  LogAnalyserAddress : String
  LogAnalyserEnabled : Bool
  Console : Bool
  LogFilePath : String
deriving DecidableEq, Repr

/-- The Go zero value `Config{}`. -/
def Config.zero : Config :=
  { ServiceName := ""
    Pod := ""
    LogLevel := ""
    LogAnalyserAddress := ""
    LogAnalyserEnabled := false
    Console := false
    LogFilePath := "" }

/-- Error message returned by `NewLogger` when no output destination is
configured (`config.go` line 21). -/
def destErrMsg : String :=
  "at least one logging option (Console, LogFile, LogAnalyserAddress) must be selected"

/-- Error message returned by `NewLogger` when neither service name nor pod
is given (`config.go` line 25). -/
def identErrMsg : String :=
  "service name and PodName must be provided"

/-- `NewLogger` from `config.go`: the Go pair `(Config, error)` is modelled
as `Config × Option String`, `none` meaning a nil error.  This function is
pure in the source as well: it constructs values and mutates no process
state. -/
def NewLogger (serviceName : String) (console : Bool) (pod : String)
    (logFilePath : String) (logAnalyserAddress : String) (logLevel : String)
    (logAnalyserEnabled : Bool) : Config × Option String :=
  if !console && logFilePath == "" && logAnalyserAddress == "" then
    (Config.zero, some destErrMsg)
  else if serviceName == "" && pod == "" then
    (Config.zero, some identErrMsg)
  else
    ({ ServiceName := serviceName
       Pod := pod
       LogLevel := logLevel
       LogAnalyserAddress := logAnalyserAddress
       LogAnalyserEnabled := logAnalyserEnabled
       Console := console
       LogFilePath := logFilePath }, none)

/-- The Unicode simple uppercase mapping applied rune-wise by Go's
`strings.ToUpper`, quotiented by the observations the level names admit:
ASCII letters map as usual, and the only non-ASCII code points whose
simple uppercase mapping lands in ASCII — U+0131 (dotless ı → I) and
U+017F (long ſ → S) — are mapped accordingly.  Every other code point is
mapped outside ASCII by Go (or is fixed), so modelling it as fixed
preserves every equality with a pure-ASCII string such as the seven
level names. -/
def goCharToUpper (c : Char) : Char :=
  if c = 'ı' then 'I'
  else if c = 'ſ' then 'S'
  else c.toUpper

/-- The Unicode simple lowercase mapping applied rune-wise by Go's
`strings.ToLower`, under the same observation-preserving quotient: ASCII
letters map as usual, and the only non-ASCII code points whose simple
lowercase mapping lands in ASCII — U+0130 (İ → i) and U+212A (Kelvin
sign → k) — are mapped accordingly; every other code point is mapped
outside ASCII by Go (or is fixed) and is left unchanged. -/
def goCharToLower (c : Char) : Char :=
  if c = 'İ' then 'i'
  else if c = Char.ofNat 0x212A then 'k'
  else c.toLower

/-- Go's `strings.ToUpper`: the simple uppercase mapping applied to every
rune of the string. -/
def goToUpper (s : String) : String :=
  String.mk (s.data.map goCharToUpper)

/-- Go's `strings.ToLower`: the simple lowercase mapping applied to every
rune of the string. -/
def goToLower (s : String) : String :=
  String.mk (s.data.map goCharToLower)

/-- `parseLogLevel` from the logging file: Go's
`switch strings.ToUpper(level)` compiled to its if-chain, with the
default arm returning the info level. -/
def parseLogLevel (level : String) : Level :=
  let u := goToUpper level
  if u = "DEBUG" then Level.debug
  else if u = "INFO" then Level.info
  else if u = "WARN" then Level.warn
  else if u = "ERROR" then Level.error
  else if u = "FATAL" then Level.fatal
  else if u = "PANIC" then Level.panic
  else if u = "TRACE" then Level.trace
  else Level.info

/-- Diagnostic field added when the variadic field list has odd length. -/
def feUneven : String × GoValue :=
  ("fields_error", GoValue.str "uneven number of key-value pairs")

/-- Diagnostic field added when a key-value pair is not two strings. -/
def feNonString : String × GoValue :=
  ("fields_error", GoValue.str "key-value pairs must be strings")

/-- The field-attachment loop of `logWithFields`: consume the (even-length)
list two elements at a time; a pair of strings is attached via
`event.Str`, the first non-string pair adds the `fields_error`
diagnostic and breaks out of the loop. -/
def attachPairs : List GoValue → List (String × GoValue)
  | GoValue.str k :: GoValue.str v :: rest => (k, GoValue.str v) :: attachPairs rest
  | _ :: _ :: _ => [feNonString]
  | _ => []

/-- `logWithFields` from the logging file: builds the event at the given
level, validates the variadic field list (odd length is replaced wholesale
by the `fields_error` diagnostic; otherwise pairs are attached until the
first non-string pair), and calls `Msg` exactly once — the singleton list
is the one emitted record handed to the sink layer. -/
def logWithFields (level : Level) (message : String)
    (fields : List GoValue) : List Record :=
  if fields.length % 2 ≠ 0 then
    [{ level := level, message := message, fields := [feUneven] }]
  else
    [{ level := level, message := message, fields := attachPairs fields }]

/-- `Info` from the logging file. -/
def Info (message : String) (fields : List GoValue) : List Record :=
  logWithFields Level.info message fields

/-- `ErrorWithError` from the logging file: appends the pair
`("error", errors.WithStack(err))` to the caller's fields and logs the
error's message at error level through `logWithFields`. -/
def ErrorWithError (errMsg : String) (fields : List GoValue) : List Record :=
  logWithFields Level.error errMsg
    (fields ++ [GoValue.str "error", GoValue.errWithStack errMsg])

/-- Whether some pair of consecutive elements (at an even offset) of the
field list is not a pair of strings. -/
def hasNonStringPair : List GoValue → Bool
  | k :: v :: rest => (!(k.isStr && v.isStr)) || hasNonStringPair rest
  | _ => false

/-- An even-length all-string pair list flattened back to the variadic
shape `k1, v1, k2, v2, ...` that the Go call site passes. -/
def flattenPairs : List (String × String) → List GoValue
  | [] => []
  | (k, v) :: rest => GoValue.str k :: GoValue.str v :: flattenPairs rest

/-- A basic writable sink as appended to the `writers` slice of
`InitLogger`: standard output, an opened log file, or a Logstash
connection. -/
inductive Sink : Type where
  | stdoutW
  | fileW (path : String)
  | logstashW (address : String)
deriving DecidableEq, Repr

/-- The output writer installed in the global logger: either a single
basic sink (the stdout fallback, or the bare file handle of the
intermediate `log.Logger.Output(file)` assignment) or the
`io.MultiWriter` over the composed sink list. -/
inductive LogWriter : Type where
  | sink (s : Sink)
  | multi (ws : List Sink)
deriving DecidableEq, Repr

/-- The global zerolog logger as far as the claims observe it: its output
writer, its minimum severity level, and the fixed structured fields
attached at initialization (service, pod, process id). -/
structure Logger : Type where
  output : LogWriter
  level : Level
  service : String
  pod : String
  pid : Nat
deriving DecidableEq, Repr

/-- The process-wide mutable state of the logging package: the
package-level `initialized` flag, the global `log.Logger`, and the
`zerolog.TimeFieldFormat` global. -/
structure ProcState : Type where
  initialized : Bool
  logLogger : Logger
  timeFieldFormat : String
deriving DecidableEq, Repr

/-- Collaborator outcomes for one `InitLogger` run: whether `os.OpenFile`
succeeds on a given path, whether `net.Dial` succeeds on a given address,
and the process id returned by `os.Getpid`. -/
structure Env : Type where
  fileOpenOk : String → Bool
  dialOk : String → Bool
  pid : Nat

/-- The message of the warning emitted on re-initialization. -/
def alreadyInitMsg : String :=
  "Logger already initialized, skipping re-initialization"

/-- The record emitted through the existing logger when `InitLogger` is
called after a successful initialization. -/
def warnRecord : Record :=
  { level := Level.warn, message := alreadyInitMsg, fields := [] }

/-- `InitLogger` from `logging.go`, state passed explicitly.  `none`
models a `log.Fatal` process abort (file open or dial failure); `some`
returns the new process state together with the records emitted through
the global logger during the call.  The sink list is built exactly as in
the source: console first, then file (with the intermediate
`log.Logger = log.Logger.Output(file)` assignment), then the Logstash
writer; `io.MultiWriter` combines a non-empty list, otherwise the output
defaults to stdout. -/
def InitLogger (env : Env) (config : Config) (s : ProcState) :
    Option (ProcState × List Record) :=
  if s.initialized then
    some (s, [warnRecord])
  else
    let s1 : ProcState := { s with timeFieldFormat := "RFC3339" }
    let writers : List Sink := if config.Console then [Sink.stdoutW] else []
    if config.LogFilePath ≠ "" ∧ env.fileOpenOk config.LogFilePath = false then
      none
    else
      let writers : List Sink :=
        if config.LogFilePath ≠ "" then writers ++ [Sink.fileW config.LogFilePath]
        else writers
      let s2 : ProcState :=
        if config.LogFilePath ≠ "" then
          { s1 with logLogger :=
              { s1.logLogger with output := LogWriter.sink (Sink.fileW config.LogFilePath) } }
        else s1
      if config.LogAnalyserEnabled = true ∧ env.dialOk config.LogAnalyserAddress = false then
        none
      else
        let writers : List Sink :=
          if config.LogAnalyserEnabled then
            writers ++ [Sink.logstashW config.LogAnalyserAddress]
          else writers
        let multiWriter : LogWriter :=
          if 0 < writers.length then LogWriter.multi writers else LogWriter.sink Sink.stdoutW
        some ({ s2 with
                 logLogger :=
                   { output := multiWriter
                     level := parseLogLevel config.LogLevel
                     service := config.ServiceName
                     pod := config.Pod
                     pid := env.pid }
                 initialized := true }, [])

/-- Following the spec's words (for the refinement claim C10): the ordered
sink list obtained by checking, in a fixed order, Console, then File,
then Remote collector. -/
def specOrderedSinks (c : Config) : List Sink :=
  (if c.Console then [Sink.stdoutW] else []) ++
  (if c.LogFilePath ≠ "" then [Sink.fileW c.LogFilePath] else []) ++
  (if c.LogAnalyserEnabled then [Sink.logstashW c.LogAnalyserAddress] else [])

/-- Environment in which every file open and every dial succeeds. -/
def envAll : Env :=
  { fileOpenOk := fun _ => true, dialOk := fun _ => true, pid := 7 }

/-- The zerolog default global logger before any initialization, as far
as the claims observe it. -/
def loggerDefault : Logger :=
  { output := LogWriter.sink Sink.stdoutW
    level := Level.trace
    service := ""
    pod := ""
    pid := 0 }

/-- Fresh process state: not yet initialized. -/
def procStart : ProcState :=
  { initialized := false, logLogger := loggerDefault, timeFieldFormat := "" }

/-- A console-only configuration used by witnesses. -/
def consoleCfg : Config :=
  { ServiceName := "svc"
    Pod := "p"
    LogLevel := "debug"
    LogAnalyserAddress := ""
    LogAnalyserEnabled := false
    Console := true
    LogFilePath := "" }

/-- A configuration with all three destinations active, used by
witnesses. -/
def fullCfg : Config :=
  { ServiceName := "svc"
    Pod := "p"
    LogLevel := "debug"
    LogAnalyserAddress := "collector:5000"
    LogAnalyserEnabled := true
    Console := true
    LogFilePath := "/tmp/l.log" }

/-- The process state produced by `InitLogger envAll consoleCfg
procStart`. -/
def procAfterConsole : ProcState :=
  { initialized := true
    timeFieldFormat := "RFC3339"
    logLogger :=
      { output := LogWriter.multi [Sink.stdoutW]
        level := Level.debug
        service := "svc"
        pod := "p"
        pid := 7 } }

/-- The process state produced by `InitLogger envAll fullCfg procStart`. -/
def procAfterFull : ProcState :=
  { initialized := true
    timeFieldFormat := "RFC3339"
    logLogger :=
      { output := LogWriter.multi [Sink.stdoutW, Sink.fileW "/tmp/l.log",
          Sink.logstashW "collector:5000"]
        level := Level.debug
        service := "svc"
        pod := "p"
        pid := 7 } }

/-- C1 (counterexample): the claim says that whenever `Console` is false,
`LogFilePath` is empty and `LogAnalyserEnabled` is false, `NewLogger`
returns an error and the zero `Config`.  The code instead keys the
destination check on `logAnalyserAddress`: with a non-empty address and
the analyser disabled, `NewLogger` succeeds and returns a populated
config with a nil error. -/
theorem newLogger_c1_counterexample :
    NewLogger "svc" false "pod1" "" "collector:5000" "info" false =
      ({ ServiceName := "svc"
         Pod := "pod1"
         LogLevel := "info"
         LogAnalyserAddress := "collector:5000"
         LogAnalyserEnabled := false
         Console := false
         LogFilePath := "" }, none) := by
  decide

/-- C1 (amended): the destination-presence check is keyed on the address
string, not the enabled flag.  If `Console` is false, `LogFilePath` is
empty and `LogAnalyserAddress` is empty, `NewLogger` returns the
destination error and the zero `Config`; if at least one of
{Console, LogFilePath non-empty, LogAnalyserAddress non-empty} holds,
the destination-presence check does not fail. -/
theorem newLogger_dest_check (serviceName : String) (console : Bool)
    (pod logFilePath logAnalyserAddress logLevel : String)
    (logAnalyserEnabled : Bool) :
    (console = false → logFilePath = "" → logAnalyserAddress = "" →
      NewLogger serviceName console pod logFilePath logAnalyserAddress
        logLevel logAnalyserEnabled = (Config.zero, some destErrMsg)) ∧
    (console = true ∨ logFilePath ≠ "" ∨ logAnalyserAddress ≠ "" →
      (NewLogger serviceName console pod logFilePath logAnalyserAddress
        logLevel logAnalyserEnabled).2 ≠ some destErrMsg) := by
  constructor
  · intro hc hf ha
    subst hc; subst hf; subst ha
    simp [NewLogger]
  · intro h
    have hcond : (!console && logFilePath == "" && logAnalyserAddress == "") = false := by
      rcases h with h | h | h
      · subst h; simp
      · simp [h]
      · simp [h]
    unfold NewLogger
    rw [hcond]
    simp only [Bool.false_eq_true, if_false]
    by_cases hsp : (serviceName == "" && pod == "") = true
    · rw [if_pos hsp]
      simp [destErrMsg, identErrMsg]
    · rw [if_neg hsp]
      simp

/-- C1 witness: the amended theorem applied at concrete inputs, both the
error branch and the non-failing branch. -/
theorem newLogger_dest_check_witness :
    NewLogger "svc" false "pod1" "" "" "info" true = (Config.zero, some destErrMsg) ∧
    (NewLogger "svc" true "pod1" "" "" "info" false).2 ≠ some destErrMsg :=
  ⟨(newLogger_dest_check "svc" false "pod1" "" "" "info" true).1 rfl rfl rfl,
   (newLogger_dest_check "svc" true "pod1" "" "" "info" false).2 (Or.inl rfl)⟩

/-- C7: if both `serviceName` and `pod` are empty, `NewLogger` returns an
error, regardless of the destination settings (whichever of the two
checks fires, an error is produced). -/
theorem newLogger_identity_required (serviceName : String) (console : Bool)
    (pod logFilePath logAnalyserAddress logLevel : String)
    (logAnalyserEnabled : Bool)
    (hs : serviceName = "") (hp : pod = "") :
    (NewLogger serviceName console pod logFilePath logAnalyserAddress
      logLevel logAnalyserEnabled).2.isSome = true := by
  subst hs; subst hp
  unfold NewLogger
  by_cases hdest : (!console && logFilePath == "" && logAnalyserAddress == "") = true
  · rw [if_pos hdest]; rfl
  · rw [if_neg hdest]
    simp

/-- C7 witness: empty identity with a console destination still errors. -/
theorem newLogger_identity_required_witness :
    (NewLogger "" true "" "" "" "info" false).2.isSome = true :=
  newLogger_identity_required "" true "" "" "" "info" false rfl rfl

/-- C8: `NewLogger` checks the output-destination invariant before the
identity invariant — when the destination invariant is violated (in
particular when both are violated) the destination error is the one
returned — and any violation yields the zero `Config` together with an
error.  The embedding is a pure function, matching the source, which
mutates no process state. -/
theorem newLogger_check_order (serviceName : String) (console : Bool)
    (pod logFilePath logAnalyserAddress logLevel : String)
    (logAnalyserEnabled : Bool) :
    (console = false → logFilePath = "" → logAnalyserAddress = "" →
      NewLogger serviceName console pod logFilePath logAnalyserAddress
        logLevel logAnalyserEnabled = (Config.zero, some destErrMsg)) ∧
    ((NewLogger serviceName console pod logFilePath logAnalyserAddress
        logLevel logAnalyserEnabled).2 ≠ none →
      NewLogger serviceName console pod logFilePath logAnalyserAddress
        logLevel logAnalyserEnabled =
        (Config.zero,
          (NewLogger serviceName console pod logFilePath logAnalyserAddress
            logLevel logAnalyserEnabled).2)) := by
  constructor
  · intro hc hf ha
    subst hc; subst hf; subst ha
    simp [NewLogger]
  · intro herr
    unfold NewLogger at *
    by_cases hdest : (!console && logFilePath == "" && logAnalyserAddress == "") = true
    · rw [if_pos hdest] at *
    · rw [if_neg hdest] at *
      by_cases hsp : (serviceName == "" && pod == "") = true
      · rw [if_pos hsp] at *
      · rw [if_neg hsp] at *
        simp at herr

/-- C8 witness: with both invariants violated the destination error wins,
and the config returned is the zero value. -/
theorem newLogger_check_order_witness :
    NewLogger "" false "" "" "" "info" false = (Config.zero, some destErrMsg) ∧
    ((NewLogger "" false "" "" "" "info" false).2 ≠ none →
      NewLogger "" false "" "" "" "info" false =
        (Config.zero, (NewLogger "" false "" "" "" "info" false).2)) :=
  ⟨(newLogger_check_order "" false "" "" "" "info" false).1 rfl rfl rfl,
   (newLogger_check_order "" false "" "" "" "info" false).2⟩

/-- C9: when both invariants hold, `NewLogger` returns a nil error and a
`Config` whose seven fields are the arguments verbatim; no further
validation is applied — in particular an arbitrary `logLevel` string is
stored unchanged. -/
theorem newLogger_success (serviceName : String) (console : Bool)
    (pod logFilePath logAnalyserAddress logLevel : String)
    (logAnalyserEnabled : Bool)
    (hdest : console = true ∨ logFilePath ≠ "" ∨ logAnalyserAddress ≠ "")
    (hid : serviceName ≠ "" ∨ pod ≠ "") :
    NewLogger serviceName console pod logFilePath logAnalyserAddress
      logLevel logAnalyserEnabled =
      ({ ServiceName := serviceName
         Pod := pod
         LogLevel := logLevel
         LogAnalyserAddress := logAnalyserAddress
         LogAnalyserEnabled := logAnalyserEnabled
         Console := console
         LogFilePath := logFilePath }, none) := by
  have hcond : (!console && logFilePath == "" && logAnalyserAddress == "") = false := by
    rcases hdest with h | h | h
    · subst h; simp
    · simp [h]
    · simp [h]
  have hcond2 : (serviceName == "" && pod == "") = false := by
    rcases hid with h | h
    · simp [h]
    · simp [h]
  unfold NewLogger
  rw [hcond, hcond2]
  simp

theorem char_toNat_ofNat {n : Nat} (h : n.isValidChar) :
    (Char.ofNat n).toNat = n := by
  rw [Char.ofNat, dif_pos h]
  rfl

theorem char_toUpper_toLower (c : Char) : c.toLower.toUpper = c.toUpper := by
  unfold Char.toLower Char.toUpper
  by_cases h : c.toNat ≥ 65 ∧ c.toNat ≤ 90
  · have hv : (c.toNat + 32).isValidChar := Or.inl (by omega)
    have ht : (Char.ofNat (c.toNat + 32)).toNat = c.toNat + 32 := char_toNat_ofNat hv
    rw [if_pos h, ht, if_pos (by omega)]
    rw [if_neg (by omega)]
    have : c.toNat + 32 - 32 = c.toNat := by omega
    rw [this, Char.ofNat_toNat]
  · rw [if_neg h]

theorem char_toLower_toUpper (c : Char) : c.toUpper.toLower = c.toLower := by
  unfold Char.toLower Char.toUpper
  by_cases h : c.toNat ≥ 97 ∧ c.toNat ≤ 122
  · have hv : (c.toNat - 32).isValidChar := Or.inl (by omega)
    have ht : (Char.ofNat (c.toNat - 32)).toNat = c.toNat - 32 := char_toNat_ofNat hv
    rw [if_pos h, ht, if_pos (by omega)]
    rw [if_neg (by omega)]
    have : c.toNat - 32 + 32 = c.toNat := by omega
    rw [this, Char.ofNat_toNat]
  · rw [if_neg h]

theorem char_toLower_lt {c : Char} (h : c.toNat < 128) :
    (Char.toLower c).toNat < 128 := by
  unfold Char.toLower
  by_cases hd : c.toNat ≥ 65 ∧ c.toNat ≤ 90
  · rw [if_pos hd, char_toNat_ofNat (Or.inl (by omega))]
    omega
  · rw [if_neg hd]
    exact h

theorem char_toUpper_lt {c : Char} (h : c.toNat < 128) :
    (Char.toUpper c).toNat < 128 := by
  unfold Char.toUpper
  by_cases hd : c.toNat ≥ 97 ∧ c.toNat ≤ 122
  · rw [if_pos hd, char_toNat_ofNat (Or.inl (by omega))]
    omega
  · rw [if_neg hd]
    exact h

theorem goCharToUpper_ascii {c : Char} (h : c.toNat < 128) :
    goCharToUpper c = c.toUpper := by
  have h1 : c ≠ 'ı' := by
    intro hc
    subst hc
    exact absurd h (by decide)
  have h2 : c ≠ 'ſ' := by
    intro hc
    subst hc
    exact absurd h (by decide)
  unfold goCharToUpper
  rw [if_neg h1, if_neg h2]

theorem goCharToLower_ascii {c : Char} (h : c.toNat < 128) :
    goCharToLower c = c.toLower := by
  have h1 : c ≠ 'İ' := by
    intro hc
    subst hc
    exact absurd h (by decide)
  have h2 : c ≠ Char.ofNat 0x212A := by
    intro hc
    subst hc
    exact absurd h (by decide)
  unfold goCharToLower
  rw [if_neg h1, if_neg h2]

theorem goChar_upper_lower {c : Char} (h : c.toNat < 128) :
    goCharToUpper (goCharToLower c) = goCharToUpper c := by
  rw [goCharToLower_ascii h, goCharToUpper_ascii (char_toLower_lt h),
    goCharToUpper_ascii h]
  exact char_toUpper_toLower c

theorem goChar_lower_upper {c : Char} (h : c.toNat < 128) :
    goCharToLower (goCharToUpper c) = goCharToLower c := by
  rw [goCharToUpper_ascii h, goCharToLower_ascii (char_toUpper_lt h),
    goCharToLower_ascii h]
  exact char_toLower_toUpper c

theorem goToUpper_goToLower (s : String)
    (h : ∀ c ∈ s.data, c.toNat < 128) :
    goToUpper (goToLower s) = goToUpper s := by
  unfold goToUpper goToLower
  rw [List.map_map]
  congr 1
  exact List.map_congr_left (fun c hc => goChar_upper_lower (h c hc))

theorem goToLower_goToUpper (s : String)
    (h : ∀ c ∈ s.data, c.toNat < 128) :
    goToLower (goToUpper s) = goToLower s := by
  unfold goToLower goToUpper
  rw [List.map_map]
  congr 1
  exact List.map_congr_left (fun c hc => goChar_lower_upper (h c hc))

theorem parseLogLevel_of_upper_default {s : String}
    (h : goToUpper s ∉ (["DEBUG", "INFO", "WARN", "ERROR", "FATAL", "PANIC",
      "TRACE"] : List String)) : parseLogLevel s = Level.info := by
  simp only [List.mem_cons, List.mem_singleton, not_or] at h
  obtain ⟨h1, h2, h3, h4, h5, h6, h7, _⟩ := h
  unfold parseLogLevel
  simp only [if_neg h1, if_neg h2, if_neg h3, if_neg h4, if_neg h5, if_neg h6,
    if_neg h7]

/-- C5 (counterexample): the original claim fails on non-ASCII input,
because Go's `strings.ToUpper` and `strings.ToLower` apply Unicode
simple case mappings.  U+0131 (ı) uppercases to I, so "panıc" — whose
lowercase form is "panıc", not one of the level names — parses to the
panic level instead of the claimed info; and U+0130 (İ) lowercases to i,
so "panİc" has lowercase form "panic" yet parses to info instead of the
claimed panic. -/
theorem parseLogLevel_c5_counterexample :
    (goToLower "panıc" ∉ (["trace", "debug", "info", "warn", "error",
        "fatal", "panic"] : List String) ∧
      parseLogLevel "panıc" = Level.panic) ∧
    (goToLower "panİc" = "panic" ∧ parseLogLevel "panİc" = Level.info) := by
  decide

/-- C5 (amended): restricted to ASCII strings — every character's code
point below 128 — level-string normalization is case-insensitive and
total: for every such string whose lowercase form is one of the seven
level names, `parseLogLevel` returns the corresponding level, and every
other such string (the empty string and "verbose" included) yields the
info level.  On non-ASCII strings Go's Unicode simple case mappings
break both directions, as the counterexample shows. -/
theorem parseLogLevel_spec (s : String)
    (hascii : ∀ c ∈ s.data, c.toNat < 128) :
    (goToLower s = "trace" → parseLogLevel s = Level.trace) ∧
    (goToLower s = "debug" → parseLogLevel s = Level.debug) ∧
    (goToLower s = "info" → parseLogLevel s = Level.info) ∧
    (goToLower s = "warn" → parseLogLevel s = Level.warn) ∧
    (goToLower s = "error" → parseLogLevel s = Level.error) ∧
    (goToLower s = "fatal" → parseLogLevel s = Level.fatal) ∧
    (goToLower s = "panic" → parseLogLevel s = Level.panic) ∧
    (goToLower s ∉ (["trace", "debug", "info", "warn", "error", "fatal",
        "panic"] : List String) → parseLogLevel s = Level.info) := by
  have hup : ∀ t : String, goToLower s = t → goToUpper s = goToUpper t := by
    intro t ht
    rw [← goToUpper_goToLower s hascii, ht]
  refine ⟨?_, ?_, ?_, ?_, ?_, ?_, ?_, ?_⟩
  · intro h
    have hu : goToUpper s = "TRACE" := by rw [hup _ h]; decide
    unfold parseLogLevel
    rw [hu]
    decide
  · intro h
    have hu : goToUpper s = "DEBUG" := by rw [hup _ h]; decide
    unfold parseLogLevel
    rw [hu]
    decide
  · intro h
    have hu : goToUpper s = "INFO" := by rw [hup _ h]; decide
    unfold parseLogLevel
    rw [hu]
    decide
  · intro h
    have hu : goToUpper s = "WARN" := by rw [hup _ h]; decide
    unfold parseLogLevel
    rw [hu]
    decide
  · intro h
    have hu : goToUpper s = "ERROR" := by rw [hup _ h]; decide
    unfold parseLogLevel
    rw [hu]
    decide
  · intro h
    have hu : goToUpper s = "FATAL" := by rw [hup _ h]; decide
    unfold parseLogLevel
    rw [hu]
    decide
  · intro h
    have hu : goToUpper s = "PANIC" := by rw [hup _ h]; decide
    unfold parseLogLevel
    rw [hu]
    decide
  · intro h
    apply parseLogLevel_of_upper_default
    intro hmem
    apply h
    have hlow : goToLower s = goToLower (goToUpper s) :=
      (goToLower_goToUpper s hascii).symm
    simp only [List.mem_cons, List.mem_singleton, List.not_mem_nil, or_false] at hmem
    rcases hmem with hu | hu | hu | hu | hu | hu | hu <;>
      · rw [hlow, hu]
        decide

/-- C2 (code evaluated at the failing input): `ErrorWithError` with
`err.Error() = "boom"` and no extra fields emits one record whose message
is "boom", but whose only field is the `fields_error` diagnostic — the
wrapped error value is not a string, so `logWithFields` rejects the
appended `("error", WithStack(err))` pair and the error value and stack
trace are never attached, contradicting the claim (and the sibling
implementation in `logging.go`, which attaches them via
`.Stack().Err(...)`). -/
theorem errorWithError_drops_error :
    ErrorWithError "boom" [] =
      [{ level := Level.error, message := "boom", fields := [feNonString] }] ∧
    ∀ r ∈ ErrorWithError "boom" [],
      ∀ p ∈ r.fields, p.1 ≠ "error" := by
  constructor
  · decide
  · decide

theorem attachPairs_diag : ∀ (fields : List GoValue),
    hasNonStringPair fields = true →
    ∃ pre, attachPairs fields = pre ++ [feNonString]
  | GoValue.str k :: GoValue.str v :: rest, h => by
    have h' : hasNonStringPair rest = true := by
      simpa [hasNonStringPair, GoValue.isStr] using h
    obtain ⟨pre, hpre⟩ := attachPairs_diag rest h'
    exact ⟨(k, GoValue.str v) :: pre, by simp [attachPairs, hpre]⟩
  | GoValue.str _ :: GoValue.errWithStack _ :: _, _ => ⟨[], rfl⟩
  | GoValue.errWithStack _ :: _ :: _, _ => ⟨[], rfl⟩
  | [], h => by simp [hasNonStringPair] at h
  | [_], h => by simp [hasNonStringPair] at h

theorem attachPairs_bad_head {k v : GoValue} (rest : List GoValue)
    (h : ¬(k.isStr = true ∧ v.isStr = true)) :
    attachPairs (k :: v :: rest) = [feNonString] := by
  match k, v with
  | GoValue.str _, GoValue.str _ => exact absurd ⟨rfl, rfl⟩ h
  | GoValue.str _, GoValue.errWithStack _ => rfl
  | GoValue.errWithStack _, _ => rfl

theorem flattenPairs_length : ∀ ps : List (String × String),
    (flattenPairs ps).length = 2 * ps.length
  | [] => rfl
  | (_, _) :: rest => by
    simp [flattenPairs, flattenPairs_length rest]
    omega

theorem attachPairs_flatten_append : ∀ (ps : List (String × String))
    (tail : List GoValue),
    attachPairs (flattenPairs ps ++ tail) =
      ps.map (fun p => (p.1, GoValue.str p.2)) ++ attachPairs tail
  | [], _ => rfl
  | (k, v) :: rest, tail => by
    simp [flattenPairs, attachPairs, attachPairs_flatten_append rest tail]

/-- C3: a leveled call whose field list has odd length, or contains a
pair with a non-string element, still emits exactly one record carrying
the original message, and the offending fields are replaced by a single
trailing `fields_error` diagnostic describing the problem (odd count or
non-string pair).  The call cannot crash: the embedding, like the source
loop, is total. -/
theorem logWithFields_malformed (level : Level) (message : String)
    (fields : List GoValue)
    (h : fields.length % 2 = 1 ∨ hasNonStringPair fields = true) :
    ∃ r, logWithFields level message fields = [r] ∧
      r.message = message ∧
      ∃ pre d, r.fields = pre ++ [("fields_error", GoValue.str d)] ∧
        (d = "uneven number of key-value pairs" ∨
         d = "key-value pairs must be strings") := by
  by_cases hodd : fields.length % 2 = 0
  · have hbad : hasNonStringPair fields = true := by
      rcases h with h | h
      · exact absurd hodd (by omega)
      · exact h
    obtain ⟨pre, hpre⟩ := attachPairs_diag fields hbad
    refine ⟨{ level := level, message := message, fields := attachPairs fields },
      ?_, rfl, pre, "key-value pairs must be strings", ?_, Or.inr rfl⟩
    · simp [logWithFields, hodd]
    · rw [hpre]; rfl
  · refine ⟨{ level := level, message := message, fields := [feUneven] },
      ?_, rfl, [], "uneven number of key-value pairs", rfl, Or.inl rfl⟩
    simp [logWithFields, hodd]

/-- C3 witness: `Info("msg", "key")` — an odd field count — emits one
record with the original message and a trailing `fields_error`. -/
theorem logWithFields_malformed_witness :
    ∃ r, logWithFields Level.info "msg" [GoValue.str "key"] = [r] ∧
      r.message = "msg" ∧
      ∃ pre d, r.fields = pre ++ [("fields_error", GoValue.str d)] ∧
        (d = "uneven number of key-value pairs" ∨
         d = "key-value pairs must be strings") :=
  logWithFields_malformed Level.info "msg" [GoValue.str "key"] (Or.inl rfl)

/-- C4: for an even-length field list whose first non-string pair occurs
after the all-string pair prefix `pre`, the emitted record attaches every
pair of `pre`, then the single `fields_error` diagnostic, and drops every
pair after the offending one; for an odd-length field list no caller
field is attached at all, only the diagnostic. -/
theorem logWithFields_prefix_semantics (level : Level) (message : String) :
    (∀ (pre : List (String × String)) (k v : GoValue) (rest : List GoValue),
      ¬(k.isStr = true ∧ v.isStr = true) → rest.length % 2 = 0 →
      logWithFields level message (flattenPairs pre ++ k :: v :: rest) =
        [{ level := level, message := message,
           fields := pre.map (fun p => (p.1, GoValue.str p.2)) ++ [feNonString] }]) ∧
    (∀ fields : List GoValue, fields.length % 2 = 1 →
      logWithFields level message fields =
        [{ level := level, message := message, fields := [feUneven] }]) := by
  constructor
  · intro pre k v rest hkv hrest
    have hlen : (flattenPairs pre ++ k :: v :: rest).length % 2 = 0 := by
      simp [flattenPairs_length]
      omega
    simp only [logWithFields, hlen, ne_eq, not_true_eq_false, if_false,
      not_false_eq_true, if_neg]
    rw [attachPairs_flatten_append, attachPairs_bad_head rest hkv]
  · intro fields hfields
    have : fields.length % 2 ≠ 0 := by omega
    simp [logWithFields, this]

/-- C4 witness: `("a","b")` before the bad pair is kept, the pair after it
is dropped; and a lone odd field attaches nothing but the diagnostic. -/
theorem logWithFields_prefix_semantics_witness :
    logWithFields Level.info "m"
        (flattenPairs [("a", "b")] ++ GoValue.str "c" ::
          GoValue.errWithStack "e" :: [GoValue.str "x", GoValue.str "y"]) =
      [{ level := Level.info, message := "m",
         fields := [("a", GoValue.str "b"), feNonString] }] ∧
    logWithFields Level.info "m" [GoValue.str "k"] =
      [{ level := Level.info, message := "m", fields := [feUneven] }] :=
  ⟨(logWithFields_prefix_semantics Level.info "m").1 [("a", "b")]
      (GoValue.str "c") (GoValue.errWithStack "e")
      [GoValue.str "x", GoValue.str "y"] (by decide) rfl,
   (logWithFields_prefix_semantics Level.info "m").2 [GoValue.str "k"] rfl⟩

/-- C5 witness: mixed-case recognized names map to their level and an
unknown name falls back to info. -/
theorem parseLogLevel_spec_witness :
    parseLogLevel "TrAcE" = Level.trace ∧ parseLogLevel "verbose" = Level.info :=
  ⟨(parseLogLevel_spec "TrAcE" (by decide)).1 (by decide),
   (parseLogLevel_spec "verbose" (by decide)).2.2.2.2.2.2.2 (by decide)⟩

theorem initLogger_sets_flag {env : Env} {c : Config} {s s' : ProcState}
    {out : List Record} (h : InitLogger env c s = some (s', out)) :
    s'.initialized = true := by
  simp only [InitLogger] at h
  repeat' split at h
  all_goals
    first
      | exact Option.noConfusion h
      | (simp only [Option.some.injEq, Prod.mk.injEq] at h
         obtain ⟨h1, -⟩ := h
         rw [← h1]
         try first | rfl | assumption)

/-- C6: first-wins idempotency.  If a call `InitLogger env1 c1` took the
process from `s0` to `s1` (it did not abort), then a second call with any
configuration and any environment returns with the state `s1` completely
unchanged — same sink set, same minimum level, same attached fixed
fields — and emits exactly the already-initialized warning record. -/
theorem initLogger_first_wins (env1 env2 : Env) (c1 c2 : Config)
    (s0 s1 : ProcState) (out : List Record)
    (h : InitLogger env1 c1 s0 = some (s1, out)) :
    InitLogger env2 c2 s1 = some (s1, [warnRecord]) := by
  have hinit : s1.initialized = true := initLogger_sets_flag h
  unfold InitLogger
  rw [if_pos hinit]

/-- C6 witness: initialize with the console config, then call again with
the full config — the state after the first call survives unchanged and
the warning is emitted. -/
theorem initLogger_first_wins_witness :
    InitLogger envAll fullCfg procAfterConsole =
      some (procAfterConsole, [warnRecord]) :=
  initLogger_first_wins envAll envAll consoleCfg fullCfg procStart
    procAfterConsole [] (by decide)

/-- C10: on a run that actually initializes (flag not yet set, no abort),
the installed output writer is the multi-writer over the sink list built
in the fixed order Console, then File, then Remote collector; when that
list is empty the output falls back to standard output alone. -/
theorem initLogger_sink_order (env : Env) (c : Config) (s s' : ProcState)
    (out : List Record) (h0 : s.initialized = false)
    (h : InitLogger env c s = some (s', out)) :
    s'.logLogger.output =
      (if specOrderedSinks c = [] then LogWriter.sink Sink.stdoutW
       else LogWriter.multi (specOrderedSinks c)) ∧
    (c.Console = false → c.LogFilePath = "" → c.LogAnalyserEnabled = false →
      s'.logLogger.output = LogWriter.sink Sink.stdoutW) := by
  have hmain : s'.logLogger.output =
      (if specOrderedSinks c = [] then LogWriter.sink Sink.stdoutW
       else LogWriter.multi (specOrderedSinks c)) := by
    simp only [InitLogger, h0, Bool.false_eq_true, if_false] at h
    repeat' split at h
    all_goals
      first
        | exact Option.noConfusion h
        | (simp only [Option.some.injEq, Prod.mk.injEq] at h
           obtain ⟨h1, -⟩ := h
           rw [← h1]
           simp_all [specOrderedSinks])
  refine ⟨hmain, ?_⟩
  intro hc hf he
  rw [hmain]
  simp [specOrderedSinks, hc, hf, he]

/-- C10 witness: with all three destinations configured the output is the
multi-writer over console, file and Logstash sinks in that order. -/
theorem initLogger_sink_order_witness :
    procAfterFull.logLogger.output =
      (if specOrderedSinks fullCfg = [] then LogWriter.sink Sink.stdoutW
       else LogWriter.multi (specOrderedSinks fullCfg)) ∧
    (fullCfg.Console = false → fullCfg.LogFilePath = "" →
      fullCfg.LogAnalyserEnabled = false →
      procAfterFull.logLogger.output = LogWriter.sink Sink.stdoutW) :=
  initLogger_sink_order envAll fullCfg procStart procAfterFull []
    (by decide) (by decide)

/-- C9 witness: a fully populated call with an unrecognized level string
"VeRbOsE" succeeds and stores every argument verbatim. -/
theorem newLogger_success_witness :
    NewLogger "svc" true "pod1" "/tmp/l.log" "collector:5000" "VeRbOsE" true =
      ({ ServiceName := "svc"
         Pod := "pod1"
         LogLevel := "VeRbOsE"
         LogAnalyserAddress := "collector:5000"
         LogAnalyserEnabled := true
         Console := true
         LogFilePath := "/tmp/l.log" }, none) :=
  newLogger_success "svc" true "pod1" "/tmp/l.log" "collector:5000" "VeRbOsE" true
    (Or.inl rfl) (Or.inl (by decide))
